import Mathlib

/-
Verification of the narrow-phase collision detection core
(CSC8503Common/CollisionDetection.cpp) against its specification.

The C++ float arithmetic is embedded as exact real arithmetic; every
routine of CollisionDetection.cpp that the claims touch is transcribed
below.  Out-parameter mutation (CollisionInfo, RayCollision) is made
explicit: each routine takes the incoming record and returns the pair
(bool result, updated record).
-/

set_option maxHeartbeats 4000000

noncomputable section

/-- Modelled from the spec: the external math library's 3-component vector
(Common/Vector3, not part of the core under verification). -/
structure Vec3 where
  x : ℝ
  y : ℝ
  z : ℝ

namespace Vec3

@[ext] theorem ext3 {v w : Vec3} (hx : v.x = w.x) (hy : v.y = w.y) (hz : v.z = w.z) :
    v = w := by
  cases v; cases w; simp_all

def add (v w : Vec3) : Vec3 := ⟨v.x + w.x, v.y + w.y, v.z + w.z⟩

def sub (v w : Vec3) : Vec3 := ⟨v.x - w.x, v.y - w.y, v.z - w.z⟩

def neg (v : Vec3) : Vec3 := ⟨-v.x, -v.y, -v.z⟩

/-- Vector3 * float (componentwise scaling). -/
def mulF (v : Vec3) (s : ℝ) : Vec3 := ⟨v.x * s, v.y * s, v.z * s⟩

/-- Vector3 * Vector3 (componentwise product, used by the scale part of a pose). -/
def hadamard (v w : Vec3) : Vec3 := ⟨v.x * w.x, v.y * w.y, v.z * w.z⟩

def dot (v w : Vec3) : ℝ := v.x * w.x + v.y * w.y + v.z * w.z

def cross (v w : Vec3) : Vec3 :=
  ⟨v.y * w.z - v.z * w.y, v.z * w.x - v.x * w.z, v.x * w.y - v.y * w.x⟩

def length (v : Vec3) : ℝ := Real.sqrt (dot v v)

/-- Modelled from the spec: Vector3::Normalised of the external math library.
A zero-length vector is returned unchanged (the library guards the division
by length). -/
def normalised (v : Vec3) : Vec3 := if length v = 0 then v else mulF v (1 / length v)

def GetMaxElement (v : Vec3) : ℝ := max v.x (max v.y v.z)

end Vec3

instance : Add Vec3 := ⟨Vec3.add⟩
instance : Sub Vec3 := ⟨Vec3.sub⟩
instance : Neg Vec3 := ⟨Vec3.neg⟩
instance : HMul Vec3 ℝ Vec3 := ⟨Vec3.mulF⟩
instance : Zero Vec3 := ⟨⟨0, 0, 0⟩⟩

namespace Vec3

@[simp] theorem add_mk (a b c d e f : ℝ) :
    (⟨a, b, c⟩ + ⟨d, e, f⟩ : Vec3) = ⟨a + d, b + e, c + f⟩ := rfl

@[simp] theorem sub_mk (a b c d e f : ℝ) :
    (⟨a, b, c⟩ - ⟨d, e, f⟩ : Vec3) = ⟨a - d, b - e, c - f⟩ := rfl

@[simp] theorem neg_mk (a b c : ℝ) : (-(⟨a, b, c⟩ : Vec3)) = ⟨-a, -b, -c⟩ := rfl

@[simp] theorem mulF_mk (a b c s : ℝ) :
    ((⟨a, b, c⟩ : Vec3) * s) = (⟨a * s, b * s, c * s⟩ : Vec3) := rfl

@[simp] theorem hadamard_mk (a b c d e f : ℝ) :
    hadamard ⟨a, b, c⟩ ⟨d, e, f⟩ = ⟨a * d, b * e, c * f⟩ := rfl

@[simp] theorem dot_mk (a b c d e f : ℝ) :
    dot ⟨a, b, c⟩ ⟨d, e, f⟩ = a * d + b * e + c * f := rfl

@[simp] theorem cross_mk (a b c d e f : ℝ) :
    cross ⟨a, b, c⟩ ⟨d, e, f⟩ = ⟨b * f - c * e, c * d - a * f, a * e - b * d⟩ := rfl

@[simp] theorem zero_def : (0 : Vec3) = ⟨0, 0, 0⟩ := rfl

@[simp] theorem x_mk (a b c : ℝ) : (Vec3.mk a b c).x = a := rfl

@[simp] theorem y_mk (a b c : ℝ) : (Vec3.mk a b c).y = b := rfl

@[simp] theorem z_mk (a b c : ℝ) : (Vec3.mk a b c).z = c := rfl

@[simp] theorem mulF_x (v : Vec3) (s : ℝ) : (mulF v s).x = v.x * s := rfl

@[simp] theorem mulF_y (v : Vec3) (s : ℝ) : (mulF v s).y = v.y * s := rfl

@[simp] theorem mulF_z (v : Vec3) (s : ℝ) : (mulF v s).z = v.z * s := rfl

theorem add_def (v w : Vec3) : v + w = ⟨v.x + w.x, v.y + w.y, v.z + w.z⟩ := rfl

theorem sub_def (v w : Vec3) : v - w = ⟨v.x - w.x, v.y - w.y, v.z - w.z⟩ := rfl

theorem neg_def (v : Vec3) : -v = ⟨-v.x, -v.y, -v.z⟩ := rfl

theorem mulF_def (v : Vec3) (s : ℝ) : v * s = ⟨v.x * s, v.y * s, v.z * s⟩ := rfl

theorem length_mk (a b c : ℝ) :
    length ⟨a, b, c⟩ = Real.sqrt (a * a + b * b + c * c) := rfl

theorem dot_self_nonneg (v : Vec3) : 0 ≤ dot v v := by
  have := mul_self_nonneg v.x
  have := mul_self_nonneg v.y
  have := mul_self_nonneg v.z
  simp only [dot]
  linarith

theorem length_nonneg (v : Vec3) : 0 ≤ length v := Real.sqrt_nonneg _

theorem length_neg (v : Vec3) : length (-v) = length v := by
  simp only [length, neg_def, dot]
  ring_nf

theorem length_eq_zero_iff (v : Vec3) : length v = 0 ↔ v = 0 := by
  constructor
  · intro h
    have hd : dot v v = 0 := by
      have := Real.sqrt_eq_zero (dot_self_nonneg v) |>.mp h
      exact this
    have hx := mul_self_nonneg v.x
    have hy := mul_self_nonneg v.y
    have hz := mul_self_nonneg v.z
    simp only [dot] at hd
    have hxx : v.x * v.x = 0 := by linarith
    have hyy : v.y * v.y = 0 := by linarith
    have hzz : v.z * v.z = 0 := by linarith
    have : v.x = 0 := by nlinarith
    have : v.y = 0 := by nlinarith
    have : v.z = 0 := by nlinarith
    ext <;> simp_all
  · intro h
    subst h
    simp [length, dot, Real.sqrt_zero]

theorem length_mulF (v : Vec3) (s : ℝ) : length (mulF v s) = |s| * length v := by
  simp only [length, dot, mulF_x, mulF_y, mulF_z]
  have h1 : v.x * s * (v.x * s) + v.y * s * (v.y * s) + v.z * s * (v.z * s)
      = (s * s) * (v.x * v.x + v.y * v.y + v.z * v.z) := by ring
  rw [h1, Real.sqrt_mul (mul_self_nonneg s)]
  congr 1
  rw [← Real.sqrt_mul_self_eq_abs]

theorem length_normalised (v : Vec3) (h : v ≠ 0) : length (normalised v) = 1 := by
  have hl : length v ≠ 0 := fun h0 => h ((length_eq_zero_iff v).mp h0)
  have hlpos : 0 < length v := lt_of_le_of_ne (length_nonneg v) (Ne.symm hl)
  simp only [normalised, if_neg hl, length_mulF]
  rw [abs_of_pos (by positivity)]
  field_simp

theorem normalised_neg (v : Vec3) : normalised (-v) = -(normalised v) := by
  by_cases h : length v = 0
  · have hv : v = 0 := (length_eq_zero_iff v).mp h
    subst hv
    simp [normalised, length, dot]
  · have hn : length (-v) ≠ 0 := by rw [length_neg]; exact h
    simp only [normalised, if_neg h, if_neg hn, length_neg]
    simp only [neg_def]
    ext <;> simp

end Vec3

/-- Helper for evaluating square roots of perfect squares at concrete inputs. -/
theorem sqrt_of_sq (a b : ℝ) (hb : 0 ≤ b) (h : b * b = a) : Real.sqrt a = b := by
  rw [← h]
  exact Real.sqrt_mul_self hb

theorem sqrt_four : Real.sqrt 4 = 2 := sqrt_of_sq 4 2 (by norm_num) (by norm_num)

theorem sqrt_sixteen : Real.sqrt 16 = 4 := sqrt_of_sq 16 4 (by norm_num) (by norm_num)

theorem sqrt_hundred : Real.sqrt 100 = 10 := sqrt_of_sq 100 10 (by norm_num) (by norm_num)

theorem sqrt_nine_fourths : Real.sqrt (9 / 4) = 3 / 2 :=
  sqrt_of_sq (9 / 4) (3 / 2) (by norm_num) (by norm_num)

/-- Modelled from the spec: the external math library's quaternion
(unit rotation of a pose).  Rotation of a vector uses the standard
expansion of q v q* for a unit quaternion. -/
structure Quat where
  x : ℝ
  y : ℝ
  z : ℝ
  w : ℝ

namespace Quat

def conj (q : Quat) : Quat := ⟨-q.x, -q.y, -q.z, q.w⟩

/-- Rotation of a vector by a (unit) quaternion: v + 2w (u x v) + 2 (u x (u x v)). -/
def rot (q : Quat) (v : Vec3) : Vec3 :=
  let u : Vec3 := ⟨q.x, q.y, q.z⟩
  v + Vec3.cross u v * (2 * q.w) + Vec3.cross u (Vec3.cross u v) * (2 : ℝ)

def ident : Quat := ⟨0, 0, 0, 1⟩

@[simp] theorem conj_ident : conj ident = ident := by simp [conj, ident]

@[simp] theorem rot_ident (v : Vec3) : rot ident v = v := by
  simp only [rot, ident]
  cases v
  ext <;> simp

end Quat

/-- Modelled from the spec: a rigid pose (position, unit-rotation orientation,
per-axis scale), read-only to this core. -/
structure Transform where
  position : Vec3
  orientation : Quat
  scale : Vec3

namespace Transform

/-- Modelled from the spec: `Transform t;` local default — origin position,
identity orientation, unit scale. -/
def init : Transform := ⟨0, Quat.ident, ⟨1, 1, 1⟩⟩

/-- Modelled from the spec: application of the body's local-to-world matrix
(translation composed with rotation composed with scale) to a point. -/
def matrixMul (t : Transform) (v : Vec3) : Vec3 :=
  t.position + Quat.rot t.orientation (Vec3.hadamard t.scale v)

def SetPosition (t : Transform) (p : Vec3) : Transform := { t with position := p }

def SetScale (t : Transform) (s : Vec3) : Transform := { t with scale := s }

end Transform

namespace Maths

/-- Modelled from the spec: scalar clamp of the external math library. -/
def Clamp (a lo hi : ℝ) : ℝ := if a < lo then lo else if hi < a then hi else a

/-- Modelled from the spec: componentwise Vector3 clamp of the external math library. -/
def ClampVec (v lo hi : Vec3) : Vec3 :=
  ⟨Clamp v.x lo.x hi.x, Clamp v.y lo.y hi.y, Clamp v.z lo.z hi.z⟩

end Maths

/-- FLT_MAX, the initial value of the least-penetration accumulators. -/
def fltMax : ℝ := 340282346638528859811704183484516925440

/-
Data model: volumes, scene objects, contact manifolds
(CollisionVolume.h / AABBVolume.h / OBBVolume.h / SphereVolume.h /
CapsuleVolume.h / GameObject.h, modelled from the spec where the header
is not part of the sources; CollisionDetection.cpp is the authority for
every routine below).
-/

/-- AABBVolume: local half-dimensions plus local offset. -/
structure AABBVolume where
  halfDimensions : Vec3
  offset : Vec3

/-- OBBVolume: local half-dimensions plus local offset. -/
structure OBBVolume where
  halfDimensions : Vec3
  offset : Vec3

/-- SphereVolume: radius plus local offset. -/
structure SphereVolume where
  radius : ℝ
  offset : Vec3

/-- CapsuleVolume: half-height, radius, local offset. -/
structure CapsuleVolume where
  halfHeight : ℝ
  radius : ℝ
  offset : Vec3

/-- CollisionVolume: the kind-tagged volume owned by a body. -/
inductive CollisionVolume where
  | aabb : AABBVolume → CollisionVolume
  | obb : OBBVolume → CollisionVolume
  | sphere : SphereVolume → CollisionVolume
  | capsule : CapsuleVolume → CollisionVolume

namespace CollisionVolume

/-- Modelled from the spec: the VolumeType enum tag carried by each volume;
the tags are distinct bits so the dispatcher can OR them
(AABB = 1, OBB = 2, Sphere = 4, Capsule = 16). -/
def typeBits : CollisionVolume → ℕ
  | aabb _ => 1
  | obb _ => 2
  | sphere _ => 4
  | capsule _ => 16

/-- GetOffset lives on the CollisionVolume base class. -/
def GetOffset : CollisionVolume → Vec3
  | aabb v => v.offset
  | obb v => v.offset
  | sphere v => v.offset
  | capsule v => v.offset

/-- The C-style downcast (AABBVolume&)*vol, used on branches where the tag
has already been checked. -/
def asAABB : CollisionVolume → AABBVolume
  | aabb v => v
  | obb v => ⟨v.halfDimensions, v.offset⟩
  | sphere v => ⟨0, v.offset⟩
  | capsule v => ⟨0, v.offset⟩

/-- The C-style downcast (OBBVolume&)*vol.  An AABBVolume reinterpreted as
an OBBVolume exposes the same half-dimensions and offset (identical layout). -/
def asOBB : CollisionVolume → OBBVolume
  | aabb v => ⟨v.halfDimensions, v.offset⟩
  | obb v => v
  | sphere v => ⟨0, v.offset⟩
  | capsule v => ⟨0, v.offset⟩

/-- The C-style downcast (SphereVolume&)*vol. -/
def asSphere : CollisionVolume → SphereVolume
  | sphere v => v
  | aabb v => ⟨0, v.offset⟩
  | obb v => ⟨0, v.offset⟩
  | capsule v => ⟨v.radius, v.offset⟩

/-- The C-style downcast (CapsuleVolume&)*vol. -/
def asCapsule : CollisionVolume → CapsuleVolume
  | capsule v => v
  | aabb v => ⟨0, 0, v.offset⟩
  | obb v => ⟨0, 0, v.offset⟩
  | sphere v => ⟨0, v.radius, v.offset⟩

end CollisionVolume

/-- GameObject: the scene object as consumed by this core — a stable
identifier, an optional bounding volume, and a transform. -/
structure GameObject where
  worldID : ℤ
  boundingVolume : Option CollisionVolume
  transform : Transform

/-- ContactPoint: the single contact of a manifold (two local anchors,
world normal, penetration depth). -/
structure ContactPoint where
  localA : Vec3
  localB : Vec3
  normal : Vec3
  penetration : ℝ

/-- CollisionInfo: the contact manifold — the two participating bodies
plus the contact point. -/
structure CollisionInfo where
  a : GameObject
  b : GameObject
  point : ContactPoint

/-- CollisionInfo::AddContactPoint fills the manifold's contact in place. -/
def CollisionInfo.AddContactPoint (ci : CollisionInfo)
    (localA localB normal : Vec3) (p : ℝ) : CollisionInfo :=
  { ci with point := ⟨localA, localB, normal, p⟩ }

/-- Ray: origin position plus direction. -/
structure Ray where
  position : Vec3
  direction : Vec3

/-- Plane: unit normal plus signed distance (GetPointOnPlane returns
normal * -distance).  Modelled from the spec for the storage convention. -/
structure Plane where
  normal : Vec3
  distance : ℝ

def Plane.GetPointOnPlane (p : Plane) : Vec3 := p.normal * (-p.distance)

/-- Modelled from the spec: Plane::PlaneFromTri of the external math library —
the plane through three points, normal the normalised cross product of the
two edge vectors. -/
def Plane.PlaneFromTri (v0 v1 v2 : Vec3) : Plane :=
  let n := Vec3.normalised (Vec3.cross (v1 - v0) (v2 - v0))
  ⟨n, -(Vec3.dot n v0)⟩

/-- RayCollision: world hit point plus scalar distance along the ray. -/
structure RayCollision where
  collidedAt : Vec3
  rayDistance : ℝ

/-
Ray intersection module (CollisionDetection.cpp lines 16-170).
-/

/-- CollisionDetection::RayPlaneIntersection (lines 16-32). -/
def RayPlaneIntersection (r : Ray) (p : Plane) (collisions : RayCollision) :
    Bool × RayCollision :=
  let ln := Vec3.dot p.normal r.direction
  if ln = 0 then (false, collisions)
  else
    let planePoint := p.GetPointOnPlane
    let pointDir := planePoint - r.position
    let d := Vec3.dot pointDir p.normal / ln
    (true, { collisions with collidedAt := r.position + r.direction * d })

/-- CollisionDetection::RayBoxIntersection (lines 54-86): slab test with
per-axis near-face parameters, sentinel -1 for zero direction components,
and an epsilon-tolerant containment check. -/
def RayBoxIntersection (r : Ray) (boxPos boxSize : Vec3) (collision : RayCollision) :
    Bool × RayCollision :=
  let boxMin := boxPos - boxSize
  let boxMax := boxPos + boxSize
  let rayPos := r.position
  let rayDir := r.direction
  let tValsX := if rayDir.x > 0 then (boxMin.x - rayPos.x) / rayDir.x
    else if rayDir.x < 0 then (boxMax.x - rayPos.x) / rayDir.x else -1
  let tValsY := if rayDir.y > 0 then (boxMin.y - rayPos.y) / rayDir.y
    else if rayDir.y < 0 then (boxMax.y - rayPos.y) / rayDir.y else -1
  let tValsZ := if rayDir.z > 0 then (boxMin.z - rayPos.z) / rayDir.z
    else if rayDir.z < 0 then (boxMax.z - rayPos.z) / rayDir.z else -1
  let bestT := Vec3.GetMaxElement ⟨tValsX, tValsY, tValsZ⟩
  if bestT < 0 then (false, collision)
  else
    let intersection := rayPos + rayDir * bestT
    let epsilon : ℝ := 0.0001
    if intersection.x + epsilon < boxMin.x ∨ intersection.x - epsilon > boxMax.x ∨
       intersection.y + epsilon < boxMin.y ∨ intersection.y - epsilon > boxMax.y ∨
       intersection.z + epsilon < boxMin.z ∨ intersection.z - epsilon > boxMax.z then
      (false, collision)
    else
      (true, { collision with collidedAt := intersection, rayDistance := bestT })

/-- CollisionDetection::RayAABBIntersection (lines 88-92). -/
def RayAABBIntersection (r : Ray) (worldTransform : Transform) (volume : AABBVolume)
    (collision : RayCollision) : Bool × RayCollision :=
  let boxPos := worldTransform.position + volume.offset
  RayBoxIntersection r boxPos volume.halfDimensions collision

/-- CollisionDetection::RayOBBIntersection (lines 94-111): transform the ray
into the box's local frame, run the box test at the origin, transform back. -/
def RayOBBIntersection (r : Ray) (worldTransform : Transform) (volume : OBBVolume)
    (collision : RayCollision) : Bool × RayCollision :=
  let orientation := worldTransform.orientation
  let position := worldTransform.position + volume.offset
  let localRayPos := r.position - position
  let tempRay : Ray := ⟨Quat.rot orientation.conj localRayPos,
    Quat.rot orientation.conj r.direction⟩
  let res := RayBoxIntersection tempRay 0 volume.halfDimensions collision
  if res.1 then
    (true, { res.2 with collidedAt := Quat.rot orientation res.2.collidedAt + position })
  else res

/-- CollisionDetection::RaySphereIntersection (lines 145-170): reject a sphere
behind the ray or beyond the radius, else solve the near chord distance. -/
def RaySphereIntersection (r : Ray) (worldTransform : Transform) (volume : SphereVolume)
    (collision : RayCollision) : Bool × RayCollision :=
  let spherePos := worldTransform.position + volume.offset
  let sphereRadius := volume.radius
  let dir := spherePos - r.position
  let sphereProj := Vec3.dot dir r.direction
  if sphereProj < 0 then (false, collision)
  else
    let point := r.position + r.direction * sphereProj
    let sphereDist := Vec3.length (point - spherePos)
    if sphereDist > sphereRadius then (false, collision)
    else
      let offset := Real.sqrt (sphereRadius * sphereRadius - sphereDist * sphereDist)
      let rayDistance := sphereProj - offset
      (true, ⟨r.position + r.direction * rayDistance, rayDistance⟩)

/-- CollisionDetection::RayCapsuleIntersection (lines 113-143): intersect the
ray with the plane holding the capsule axis, clamp onto the axis segment to
pick a representative sphere, delegate to the sphere test. -/
def RayCapsuleIntersection (r : Ray) (worldTransform : Transform)
    (volume : CapsuleVolume) (collision : RayCollision) : Bool × RayCollision :=
  let extent := Quat.rot worldTransform.orientation ⟨0, 1, 0⟩ *
    (volume.halfHeight - volume.radius)
  let top := (worldTransform.position + volume.offset) + extent
  let bottom := (worldTransform.position + volume.offset) - extent
  let normal := r.position - (worldTransform.position + volume.offset)
  let capsuleDir := top - bottom
  let point0 := Vec3.cross capsuleDir normal
  let point := worldTransform.position + volume.offset + Vec3.normalised point0 * (1 : ℝ)
  let capPlane := Plane.PlaneFromTri top bottom point
  let planeRes := RayPlaneIntersection r capPlane collision
  if !planeRes.1 then (false, planeRes.2)
  else
    let capsuleLineLength := Vec3.length capsuleDir
    let capsuleDirN := Vec3.normalised capsuleDir
    let rayCapDir := planeRes.2.collidedAt - bottom
    let dotv := Maths.Clamp (Vec3.dot rayCapDir capsuleDirN) 0 capsuleLineLength
    let spherePos := bottom + capsuleDirN * dotv
    let sphere : SphereVolume := ⟨volume.radius, 0⟩
    let t := (Transform.init.SetPosition spherePos).SetScale
      ((⟨1, 1, 1⟩ : Vec3) * volume.radius)
    RaySphereIntersection r t sphere planeRes.2

/-- CollisionDetection::RayIntersection (lines 34-52): the scene-object form;
fails when the object carries no bounding volume, otherwise dispatches on the
volume kind. -/
def RayIntersection (r : Ray) (object : GameObject) (collision : RayCollision) :
    Bool × RayCollision :=
  match object.boundingVolume with
  | none => (false, collision)
  | some volume =>
    let worldTransform := object.transform
    match volume with
    | CollisionVolume.aabb v => RayAABBIntersection r worldTransform v collision
    | CollisionVolume.obb v => RayOBBIntersection r worldTransform v collision
    | CollisionVolume.sphere v => RaySphereIntersection r worldTransform v collision
    | CollisionVolume.capsule v => RayCapsuleIntersection r worldTransform v collision

/-
Pairwise narrow-phase module (CollisionDetection.cpp lines 290-797).
-/

/-- CollisionDetection::OBBSupport (lines 290-299): extremal corner of a
half-size-0.5 cube in a world direction, pushed through the body's
local-to-world matrix. -/
def OBBSupport (worldTransform : Transform) (worldDir : Vec3) : Vec3 :=
  let localDir := Quat.rot worldTransform.orientation.conj worldDir
  let vertex : Vec3 := ⟨if localDir.x < 0 then -0.5 else 0.5,
    if localDir.y < 0 then -0.5 else 0.5,
    if localDir.z < 0 then -0.5 else 0.5⟩
  worldTransform.matrixMul vertex

/-- CollisionDetection::SpherePosFromCapsule (lines 301-315): closest point on
the capsule's axis segment to another position. -/
def SpherePosFromCapsule (capsule : CapsuleVolume) (capTransform : Transform)
    (otherObjPos : Vec3) : Vec3 :=
  let extentPosition := Quat.rot capTransform.orientation ⟨0, 1, 0⟩ *
    (capsule.halfHeight - capsule.radius)
  let capTop := capTransform.position + capsule.offset + extentPosition
  let capBottom := capTransform.position + capsule.offset - extentPosition
  let capsuleDir := capTop - capBottom
  let capLineLength := Vec3.length capsuleDir
  let capsuleDirN := Vec3.normalised capsuleDir
  let pointCapDir := otherObjPos - capBottom
  let dotv := Maths.Clamp (Vec3.dot pointCapDir capsuleDirN) 0 capLineLength
  capBottom + capsuleDirN * dotv

/-- CollisionDetection::ClosestPointOnLineSegment (lines 317-322). -/
def ClosestPointOnLineSegment (a b point : Vec3) : Vec3 :=
  let ab := b - a
  let t := Vec3.dot (point - a) ab / Vec3.dot ab ab
  a + ab * Maths.Clamp t 0 1

/-- CollisionDetection::AABBTest (lines 453-464): per-axis strict
absolute-difference overlap test. -/
def AABBTest (posA posB halfSizeA halfSizeB : Vec3) : Bool :=
  let delta := posB - posA
  let totalSize := halfSizeA + halfSizeB
  |delta.x| < totalSize.x ∧ |delta.y| < totalSize.y ∧ |delta.z| < totalSize.z

/-- The min-search loop over the six face-separation distances of the
AABB-AABB test (lines 499-507): penetration starts at FLT_MAX, bestAxis at
the default-constructed zero vector, and a strictly smaller distance wins. -/
def bestFace (pairs : List (ℝ × Vec3)) : ℝ × Vec3 :=
  pairs.foldl (fun acc dv => if dv.1 < acc.1 then dv else acc) (fltMax, (0 : Vec3))

/-- CollisionDetection::AABBIntersection (lines 467-512): on overlap pick the
minimum of the six face-separation distances (first minimum wins) as
penetration, with the matching face normal; anchors are left at the origin. -/
def AABBIntersection (volumeA : AABBVolume) (worldTransformA : Transform)
    (volumeB : AABBVolume) (worldTransformB : Transform) (collisionInfo : CollisionInfo) :
    Bool × CollisionInfo :=
  let boxAPos := worldTransformA.position + volumeA.offset
  let boxBPos := worldTransformB.position + volumeB.offset
  let boxASize := volumeA.halfDimensions
  let boxBSize := volumeB.halfDimensions
  let overlap := AABBTest boxAPos boxBPos boxASize boxBSize
  if overlap then
    let maxA := boxAPos + boxASize
    let minA := boxAPos - boxASize
    let maxB := boxBPos + boxBSize
    let minB := boxBPos - boxBSize
    let pairs : List (ℝ × Vec3) :=
      [(maxB.x - minA.x, ⟨-1, 0, 0⟩),
       (maxA.x - minB.x, ⟨1, 0, 0⟩),
       (maxB.y - minA.y, ⟨0, -1, 0⟩),
       (maxA.y - minB.y, ⟨0, 1, 0⟩),
       (maxB.z - minA.z, ⟨0, 0, -1⟩),
       (maxA.z - minB.z, ⟨0, 0, 1⟩)]
    let best := bestFace pairs
    (true, collisionInfo.AddContactPoint 0 0 best.2 best.1)
  else
    (false, collisionInfo)

/-- CollisionDetection::SphereIntersection (lines 565-583). -/
def SphereIntersection (volumeA : SphereVolume) (worldTransformA : Transform)
    (volumeB : SphereVolume) (worldTransformB : Transform) (collisionInfo : CollisionInfo) :
    Bool × CollisionInfo :=
  let radii := volumeA.radius + volumeB.radius
  let delta := (worldTransformB.position + volumeB.offset) -
    (worldTransformA.position + volumeA.offset)
  let deltaLength := Vec3.length delta
  if deltaLength < radii then
    let penetration := radii - deltaLength
    let normal := Vec3.normalised delta
    let localA := normal * volumeA.radius
    let localB := (-normal) * volumeB.radius
    (true, collisionInfo.AddContactPoint localA localB normal penetration)
  else
    (false, collisionInfo)

/-- CollisionDetection::AABBSphereIntersection (lines 633-655): clamp the
center difference into the half-extent range; the residual decides collision.
The box anchor is reported only when the useBoxPoint flag is set (the flag
defaults to false at the plain dispatch call sites). -/
def AABBSphereIntersection (volumeA : AABBVolume) (worldTransformA : Transform)
    (volumeB : SphereVolume) (worldTransformB : Transform)
    (collisionInfo : CollisionInfo) (useBoxPoint : Bool) : Bool × CollisionInfo :=
  let boxSize := volumeA.halfDimensions
  let delta := (worldTransformB.position + volumeB.offset) -
    (worldTransformA.position + volumeA.offset)
  let closestPointOnBox := Maths.ClampVec delta (-boxSize) boxSize
  let localPoint := delta - closestPointOnBox
  let distance := Vec3.length localPoint
  if distance < volumeB.radius then
    let collisionNormal := Vec3.normalised localPoint
    let penetration := volumeB.radius - distance
    let localA := (-collisionNormal) * volumeB.radius
    let localB := if useBoxPoint then closestPointOnBox else 0
    (true, collisionInfo.AddContactPoint localA localB collisionNormal penetration)
  else
    (false, collisionInfo)

/-- CollisionDetection::SphereOBBIntersection (lines 586-609): move both
participants into the OBB's local frame, delegate to the AABB-sphere test
with the box-point flag set, rotate the results back, negating the normal. -/
def SphereOBBIntersection (volumeA : SphereVolume) (worldTransformA : Transform)
    (volumeB : OBBVolume) (worldTransformB : Transform) (collisionInfo : CollisionInfo) :
    Bool × CollisionInfo :=
  let orientation := worldTransformB.orientation
  let sphere : SphereVolume := ⟨volumeA.radius, 0⟩
  let sphereTransform := (Transform.init.SetPosition
    (Quat.rot orientation.conj worldTransformA.position + volumeA.offset)).SetScale
    ((⟨1, 1, 1⟩ : Vec3) * volumeA.radius)
  let aabb : AABBVolume := ⟨volumeB.halfDimensions, 0⟩
  let aabbTransform := (Transform.init.SetPosition
    (Quat.rot orientation.conj worldTransformB.position + volumeB.offset)).SetScale
    volumeB.halfDimensions
  let res := AABBSphereIntersection aabb aabbTransform sphere sphereTransform
    collisionInfo true
  let p := res.2.point
  (res.1, { res.2 with point := { p with
    localA := Quat.rot orientation p.localA,
    localB := Quat.rot orientation p.localB,
    normal := Quat.rot orientation (-p.normal) } })

/-- CollisionDetection::CapsuleOBBIntersection (lines 612-630): reduce the
capsule to a sphere at the axis point closest to a clamped OBB point and
delegate to the sphere-OBB test, then shift the capsule-side anchor. -/
def CapsuleOBBIntersection (volumeA : CapsuleVolume) (worldTransformA : Transform)
    (volumeB : OBBVolume) (worldTransformB : Transform) (collisionInfo : CollisionInfo) :
    Bool × CollisionInfo :=
  let invRot := worldTransformB.orientation.conj
  let point := Quat.rot worldTransformB.orientation (Maths.ClampVec
    (Quat.rot invRot worldTransformA.position + volumeA.offset)
    (worldTransformB.position + volumeB.offset - volumeB.halfDimensions)
    (worldTransformB.position + volumeB.offset + volumeB.halfDimensions))
  let sphere : SphereVolume := ⟨volumeA.radius, 0⟩
  let sphereTransform := (Transform.init.SetPosition
    (SpherePosFromCapsule volumeA worldTransformA point)).SetScale
    ((⟨1, 1, 1⟩ : Vec3) * volumeA.radius)
  let res := SphereOBBIntersection sphere sphereTransform volumeB worldTransformB
    collisionInfo
  let p := res.2.point
  (res.1, { res.2 with point := { p with
    localA := p.localA + (sphereTransform.position - worldTransformA.position +
      volumeA.offset) } })

/-- CollisionDetection::CapsuleIntersection (lines 514-562): reduce to a
sphere-sphere test between closest points of the two axis segments, then
shift both anchors.  The anchor shifts happen whether or not the delegated
sphere test reported a collision. -/
def CapsuleIntersection (volumeA : CapsuleVolume) (worldTransformA : Transform)
    (volumeB : CapsuleVolume) (worldTransformB : Transform) (collisionInfo : CollisionInfo) :
    Bool × CollisionInfo :=
  let capExtPositionA := Quat.rot worldTransformA.orientation ⟨0, 1, 0⟩ *
    (volumeA.halfHeight - volumeA.radius)
  let capTopA := worldTransformA.position + volumeA.offset + capExtPositionA
  let capBottomA := worldTransformA.position + volumeA.offset - capExtPositionA
  let capExtPositionB := Quat.rot worldTransformB.orientation ⟨0, 1, 0⟩ *
    (volumeB.halfHeight - volumeB.radius)
  let capTopB := worldTransformB.position + volumeB.offset + capExtPositionB
  let capBottomB := worldTransformB.position + volumeB.offset - capExtPositionB
  let v0 := capBottomB - capBottomA
  let v1 := capTopB - capBottomA
  let v2 := capBottomB - capTopA
  let v3 := capTopB - capTopA
  let d0 := Vec3.dot v0 v0
  let d1 := Vec3.dot v1 v1
  let d2 := Vec3.dot v2 v2
  let d3 := Vec3.dot v3 v3
  let bestA0 := if d2 < d0 ∨ d2 < d1 ∨ d3 < d0 ∨ d3 < d1 then capTopA else capBottomA
  let bestB := ClosestPointOnLineSegment capBottomB capTopB bestA0
  let bestA := ClosestPointOnLineSegment capBottomA capTopA bestB
  let sphereA : SphereVolume := ⟨volumeA.radius, 0⟩
  let sphereTransformA := (Transform.init.SetPosition bestA).SetScale
    ((⟨1, 1, 1⟩ : Vec3) * volumeA.radius)
  let sphereB : SphereVolume := ⟨volumeB.radius, 0⟩
  let sphereTransformB := (Transform.init.SetPosition bestB).SetScale
    ((⟨1, 1, 1⟩ : Vec3) * volumeB.radius)
  let res := SphereIntersection sphereA sphereTransformA sphereB sphereTransformB
    collisionInfo
  let p := res.2.point
  (res.1, { res.2 with point := { p with
    localA := p.localA + (sphereTransformA.position - worldTransformA.position +
      volumeA.offset),
    localB := p.localB + (sphereTransformB.position - worldTransformB.position +
      volumeB.offset) } })

/-- CollisionDetection::SphereCapsuleIntersection (lines 767-779). -/
def SphereCapsuleIntersection (volumeA : CapsuleVolume) (worldTransformA : Transform)
    (volumeB : SphereVolume) (worldTransformB : Transform) (collisionInfo : CollisionInfo) :
    Bool × CollisionInfo :=
  let sphere : SphereVolume := ⟨volumeA.radius, 0⟩
  let sphereTransform := (Transform.init.SetPosition
    (SpherePosFromCapsule volumeA worldTransformA
      (worldTransformB.position + volumeB.offset))).SetScale
    ((⟨1, 1, 1⟩ : Vec3) * volumeA.radius)
  let res := SphereIntersection sphere sphereTransform volumeB worldTransformB
    collisionInfo
  let p := res.2.point
  (res.1, { res.2 with point := { p with
    localA := p.localA + (sphereTransform.position - worldTransformA.position +
      volumeA.offset) } })

/-- CollisionDetection::AABBCapsuleIntersection (lines 782-797). -/
def AABBCapsuleIntersection (volumeA : CapsuleVolume) (worldTransformA : Transform)
    (volumeB : AABBVolume) (worldTransformB : Transform) (collisionInfo : CollisionInfo) :
    Bool × CollisionInfo :=
  let point := Maths.ClampVec (worldTransformA.position + volumeA.offset)
    (worldTransformB.position + volumeB.offset - volumeB.halfDimensions)
    (worldTransformB.position + volumeB.offset + volumeB.halfDimensions)
  let sphere : SphereVolume := ⟨volumeA.radius, 0⟩
  let sphereTransform := (Transform.init.SetPosition
    (SpherePosFromCapsule volumeA worldTransformA point)).SetScale
    ((⟨1, 1, 1⟩ : Vec3) * volumeA.radius)
  let res := AABBSphereIntersection volumeB worldTransformB sphere sphereTransform
    collisionInfo false
  let p := res.2.point
  (res.1, { res.2 with point := { p with
    normal := -p.normal,
    localA := p.localA + (sphereTransform.position - worldTransformA.position +
      volumeA.offset) } })

/-- Loop state of the OBB-OBB separating-axis test: the least penetration
found so far, the write-only penIndex, and the manifold contact being
mutated in place. -/
structure ObbAxisState where
  leastPenetration : ℝ
  penIndex : ℤ
  point : ContactPoint

/-- One iteration of the OBB-OBB axis loop (CollisionDetection.cpp lines
692-758).  Returns none exactly when the iteration hits the final
`return false` path. -/
def obbAxisStep (tA tB : Transform) (i : ℤ) (d : Vec3) (s : ObbAxisState) :
    Option ObbAxisState :=
  if Vec3.dot d d < 0.99 then some s
  else
    let maxA := OBBSupport tA d
    let minA := OBBSupport tA (-d)
    let maxB := OBBSupport tB d
    let minB := OBBSupport tB (-d)
    let denom := Vec3.dot d d
    let minExtentA := d * (Vec3.dot minA d / denom)
    let maxExtentA := d * (Vec3.dot maxA d / denom)
    let minExtentB := d * (Vec3.dot minB d / denom)
    let maxExtentB := d * (Vec3.dot maxB d / denom)
    let left := Vec3.dot (maxExtentA - minExtentA) (minExtentB - minExtentA)
    let right := Vec3.dot (minExtentA - maxExtentA) (maxExtentB - maxExtentA)
    if 0 < right ∧ Vec3.length (maxExtentB - maxExtentA) ≤
        Vec3.length (maxExtentA - minExtentA) then
      let penDist := Vec3.length (maxExtentA - minExtentA) -
        Vec3.length (maxExtentB - maxExtentA)
      some (if penDist < s.leastPenetration then
        ⟨penDist, i, { s.point with localA := minA, localB := maxB, normal := -d }⟩
      else s)
    else if 0 < left ∧ Vec3.length (minExtentB - minExtentA) ≤
        Vec3.length (maxExtentA - minExtentA) then
      let penDist := Vec3.length (maxExtentA - minExtentA) -
        Vec3.length (minExtentB - minExtentA)
      some (if penDist < s.leastPenetration then
        ⟨penDist, i, { s.point with localA := maxA, localB := minB, normal := d }⟩
      else s)
    else if left < 0 ∧ right < 0 then
      some { s with penIndex := i }
    else
      none

/-- The OBB-OBB axis loop over the candidate axes, carrying the loop index;
a false first component marks the early `return false` exit, with the state
reached so far (the out-parameter keeps any writes already made). -/
def obbLoop (tA tB : Transform) : ℤ → List Vec3 → ObbAxisState → Bool × ObbAxisState
  | _, [], s => (true, s)
  | i, d :: rest, s =>
    match obbAxisStep tA tB i d s with
    | none => (false, s)
    | some s' => obbLoop tA tB (i + 1) rest s'

/-- The 15 candidate axes of the OBB-OBB test (lines 661-687): the two
bodies' local frames and the nine pairwise cross products. -/
def obbDirections (tA tB : Transform) : List Vec3 :=
  let ax := Quat.rot tA.orientation ⟨1, 0, 0⟩
  let ay := Quat.rot tA.orientation ⟨0, 1, 0⟩
  let az := Quat.rot tA.orientation ⟨0, 0, 1⟩
  let bx := Quat.rot tB.orientation ⟨1, 0, 0⟩
  let by' := Quat.rot tB.orientation ⟨0, 1, 0⟩
  let bz := Quat.rot tB.orientation ⟨0, 0, 1⟩
  [ax, ay, az, bx, by', bz,
   Vec3.cross ax bx, Vec3.cross ax by', Vec3.cross ax bz,
   Vec3.cross ay bx, Vec3.cross ay by', Vec3.cross ay bz,
   Vec3.cross az bx, Vec3.cross az by', Vec3.cross az bz]

/-- CollisionDetection::OBBIntersection (lines 657-764): separating-axis test
over 15 candidate axes.  On surviving the loop the penetration written out is
the accumulator (FLT_MAX if no axis ever recorded one) and the anchors are
shifted by each body's origin; on an early exit the manifold keeps whatever
the loop wrote so far. -/
def OBBIntersection (volumeA : OBBVolume) (worldTransformA : Transform)
    (volumeB : OBBVolume) (worldTransformB : Transform) (collisionInfo : CollisionInfo) :
    Bool × CollisionInfo :=
  let dirs := obbDirections worldTransformA worldTransformB
  let init : ObbAxisState := ⟨fltMax, -1, collisionInfo.point⟩
  let res := obbLoop worldTransformA worldTransformB 0 dirs init
  match res with
  | (false, s) => (false, { collisionInfo with point := s.point })
  | (true, s) =>
    let p1 := { s.point with penetration := s.leastPenetration }
    let p2 := { p1 with
      localA := p1.localA - (worldTransformA.position + volumeA.offset),
      localB := p1.localB - (worldTransformB.position + volumeB.offset) }
    (true, { collisionInfo with point := p2 })

/-- CollisionDetection::ObjectIntersection (lines 369-451): the narrow-phase
dispatcher.  Fails when either object lacks a bounding volume; otherwise
writes the two body references, ORs the volume type tags to find same-kind
pairs, then walks the mixed-pair checks, swapping the manifold's body
references for non-canonical argument orders. -/
def ObjectIntersection (a b : GameObject) (collisionInfo : CollisionInfo) :
    Bool × CollisionInfo :=
  match a.boundingVolume, b.boundingVolume with
  | none, _ => (false, collisionInfo)
  | some _, none => (false, collisionInfo)
  | some volA, some volB =>
    let ci := { collisionInfo with a := a, b := b }
    let transformA := a.transform
    let transformB := b.transform
    let pairType := volA.typeBits ||| volB.typeBits
    if pairType = 1 then
      AABBIntersection volA.asAABB transformA volB.asAABB transformB ci
    else if pairType = 4 then
      SphereIntersection volA.asSphere transformA volB.asSphere transformB ci
    else if pairType = 2 then
      OBBIntersection volA.asOBB transformA volB.asOBB transformB ci
    else if pairType = 16 then
      CapsuleIntersection volA.asCapsule transformA volB.asCapsule transformB ci
    else if volA.typeBits = 1 ∧ volB.typeBits = 4 then
      AABBSphereIntersection volA.asAABB transformA volB.asSphere transformB ci false
    else if volA.typeBits = 4 ∧ volB.typeBits = 1 then
      let ci := { ci with a := b, b := a }
      AABBSphereIntersection volB.asAABB transformB volA.asSphere transformA ci false
    else if volA.typeBits = 16 ∧ volB.typeBits = 4 then
      SphereCapsuleIntersection volA.asCapsule transformA volB.asSphere transformB ci
    else if volA.typeBits = 4 ∧ volB.typeBits = 16 then
      let ci := { ci with a := b, b := a }
      SphereCapsuleIntersection volB.asCapsule transformB volA.asSphere transformA ci
    else if volA.typeBits = 16 ∧ volB.typeBits = 1 then
      AABBCapsuleIntersection volA.asCapsule transformA volB.asAABB transformB ci
    else if volA.typeBits = 1 ∧ volB.typeBits = 16 then
      let ci := { ci with a := b, b := a }
      AABBCapsuleIntersection volB.asCapsule transformB volA.asAABB transformA ci
    else if volA.typeBits = 4 ∧ volB.typeBits = 2 then
      SphereOBBIntersection volA.asSphere transformA volB.asOBB transformB ci
    else if volA.typeBits = 2 ∧ volB.typeBits = 4 then
      let ci := { ci with a := b, b := a }
      SphereOBBIntersection volB.asSphere transformB volA.asOBB transformA ci
    else if volA.typeBits = 16 ∧ volB.typeBits = 2 then
      CapsuleOBBIntersection volA.asCapsule transformA volB.asOBB transformB ci
    else if volA.typeBits = 2 ∧ volB.typeBits = 16 then
      let ci := { ci with a := b, b := a }
      CapsuleOBBIntersection volB.asCapsule transformB volA.asOBB transformA ci
    else if (volA.typeBits = 1 ∧ volB.typeBits = 2) ∨
        (volA.typeBits = 2 ∧ volB.typeBits = 1) then
      OBBIntersection volA.asOBB transformA volB.asOBB transformB ci
    else
      (false, ci)

/-- The size_t cast of a (signed) world identifier: two's-complement
reduction modulo 2^64. -/
def sizeT (z : ℤ) : ℕ := (z % (2 ^ 64 : ℤ)).toNat

/-- CollisionInfo::operator< (lines 799-808): compare the composite 64-bit
keys idA + (idB << 32), each computed in size_t arithmetic. -/
def CollisionInfo.pairHash (ci : CollisionInfo) : ℕ :=
  (sizeT ci.a.worldID + (sizeT ci.b.worldID * 2 ^ 32) % 2 ^ 64) % 2 ^ 64

def CollisionInfo.lt (ci other : CollisionInfo) : Bool :=
  ci.pairHash < other.pairHash

/-
Theorems for the claims.
-/

/-- Claim C7: the object-level queries fail gracefully on missing input —
RayIntersection returns false with the collision record untouched when the
object's bounding volume is absent, and ObjectIntersection returns false
with the manifold untouched when either object's bounding volume is absent. -/
theorem claim_C7_null_volume :
    (∀ (r : Ray) (id : ℤ) (t : Transform) (c : RayCollision),
      RayIntersection r ⟨id, none, t⟩ c = (false, c)) ∧
    (∀ (b : GameObject) (id : ℤ) (t : Transform) (ci : CollisionInfo),
      ObjectIntersection ⟨id, none, t⟩ b ci = (false, ci)) ∧
    (∀ (a : GameObject) (id : ℤ) (t : Transform) (ci : CollisionInfo),
      ObjectIntersection a ⟨id, none, t⟩ ci = (false, ci)) := by
  refine ⟨fun r id t c => rfl, fun b id t ci => rfl, fun a id t ci => ?_⟩
  cases h : a.boundingVolume <;> simp [ObjectIntersection, h]

/-- Helper manifold for the ordering claim: two bodies known only by their
identifiers and an empty contact. -/
def mkInfo (ia ib : ℤ) : CollisionInfo :=
  ⟨⟨ia, none, Transform.init⟩, ⟨ib, none, Transform.init⟩, ⟨0, 0, 0, 0⟩⟩

/-- Claim C8: CollisionInfo::operator< compares manifolds by the composite
64-bit key idA + (idB << 32) (identifier of body a in the low half), and is
irreflexive and transitive — on all manifolds, not just those with distinct
identifier pairs. -/
theorem claim_C8_ordering (m n p : CollisionInfo) :
    (CollisionInfo.lt m n = true ↔ m.pairHash < n.pairHash) ∧
    CollisionInfo.lt m m = false ∧
    (CollisionInfo.lt m n = true → CollisionInfo.lt n p = true →
      CollisionInfo.lt m p = true) := by
  refine ⟨by simp [CollisionInfo.lt], by simp [CollisionInfo.lt], ?_⟩
  simp only [CollisionInfo.lt, decide_eq_true_eq]
  exact Nat.lt_trans

/-- Witness for C8: three concrete manifolds with ascending identifier pairs
are ordered transitively by the composite key. -/
theorem claim_C8_witness :
    CollisionInfo.lt (mkInfo 1 2) (mkInfo 2 3) = true ∧
    CollisionInfo.lt (mkInfo 2 3) (mkInfo 3 4) = true ∧
    CollisionInfo.lt (mkInfo 1 2) (mkInfo 3 4) = true := by
  have h12 : CollisionInfo.lt (mkInfo 1 2) (mkInfo 2 3) = true := by
    simp only [CollisionInfo.lt, CollisionInfo.pairHash, mkInfo, sizeT]
    decide
  have h23 : CollisionInfo.lt (mkInfo 2 3) (mkInfo 3 4) = true := by
    simp only [CollisionInfo.lt, CollisionInfo.pairHash, mkInfo, sizeT]
    decide
  exact ⟨h12, h23, (claim_C8_ordering (mkInfo 1 2) (mkInfo 2 3) (mkInfo 3 4)).2.2
    h12 h23⟩

/-- The identity pose at a given position. -/
def poseAt (p : Vec3) : Transform := ⟨p, Quat.ident, ⟨1, 1, 1⟩⟩

/-- An empty incoming manifold used by the concrete instantiations. -/
def ciInit : CollisionInfo := mkInfo 0 0

/-- Claim C3: the sphere-sphere test collides exactly when the sum of radii
minus the center distance is positive, and then reports that difference as
penetration, the normalised center difference as normal, and anchors
+radiusA / -radiusB along the normal (relative to each body's offset
center). -/
theorem claim_C3_sphere_sphere (rA rB : ℝ) (oA oB : Vec3) (tA tB : Transform)
    (ci : CollisionInfo) :
    ((SphereIntersection ⟨rA, oA⟩ tA ⟨rB, oB⟩ tB ci).1 = true ↔
      0 < (rA + rB) - Vec3.length ((tB.position + oB) - (tA.position + oA))) ∧
    ((SphereIntersection ⟨rA, oA⟩ tA ⟨rB, oB⟩ tB ci).1 = true →
      (SphereIntersection ⟨rA, oA⟩ tA ⟨rB, oB⟩ tB ci).2.point =
        ⟨Vec3.normalised ((tB.position + oB) - (tA.position + oA)) * rA,
         (-(Vec3.normalised ((tB.position + oB) - (tA.position + oA)))) * rB,
         Vec3.normalised ((tB.position + oB) - (tA.position + oA)),
         (rA + rB) - Vec3.length ((tB.position + oB) - (tA.position + oA))⟩) := by
  simp only [SphereIntersection, CollisionInfo.AddContactPoint]
  split_ifs with h
  · refine ⟨⟨fun _ => by linarith, fun _ => rfl⟩, fun _ => rfl⟩
  · refine ⟨⟨fun hf => by simp at hf, fun hp => absurd (by linarith) h⟩,
      fun hf => by simp at hf⟩

/-- Witness for C3: two unit spheres with centers 1.5 apart collide with
penetration 0.5. -/
theorem claim_C3_witness :
    (SphereIntersection ⟨1, 0⟩ (poseAt 0) ⟨1, 0⟩ (poseAt ⟨3 / 2, 0, 0⟩) ciInit).1
      = true ∧
    (SphereIntersection ⟨1, 0⟩ (poseAt 0) ⟨1, 0⟩ (poseAt ⟨3 / 2, 0, 0⟩) ciInit).2.point.penetration
      = 1 / 2 := by
  have h := claim_C3_sphere_sphere 1 1 0 0 (poseAt 0) (poseAt ⟨3 / 2, 0, 0⟩) ciInit
  have hlen : Vec3.length (((poseAt ⟨3 / 2, 0, 0⟩).position + 0) -
      ((poseAt 0).position + 0)) = 3 / 2 := by
    have hv : ((poseAt ⟨3 / 2, 0, 0⟩).position + 0) - ((poseAt 0).position + 0)
        = (⟨3 / 2, 0, 0⟩ : Vec3) := by
      simp [poseAt]
    rw [hv, Vec3.length_mk,
      show (3 / 2 : ℝ) * (3 / 2) + 0 * 0 + 0 * 0 = 9 / 4 by norm_num]
    exact sqrt_nine_fourths
  have htrue : (SphereIntersection ⟨1, 0⟩ (poseAt 0) ⟨1, 0⟩
      (poseAt ⟨3 / 2, 0, 0⟩) ciInit).1 = true := by
    refine h.1.mpr ?_
    rw [hlen]
    norm_num
  refine ⟨htrue, ?_⟩
  rw [h.2 htrue]
  rw [hlen]
  norm_num

/-- Claim C6: the ray-sphere test reports no hit exactly when the projection
of the center difference onto the ray direction is negative or the distance
from the projected point to the center exceeds the radius; otherwise it
reports the near intersection distance (projection minus the Pythagorean
chord half-length) and the point at that distance along the ray. -/
theorem claim_C6_ray_sphere (r : Ray) (rad : ℝ) (off : Vec3) (t : Transform)
    (c : RayCollision) :
    ((RaySphereIntersection r t ⟨rad, off⟩ c).1 = false ↔
      Vec3.dot ((t.position + off) - r.position) r.direction < 0 ∨
      Vec3.length ((r.position + r.direction *
          Vec3.dot ((t.position + off) - r.position) r.direction) -
        (t.position + off)) > rad) ∧
    ((RaySphereIntersection r t ⟨rad, off⟩ c).1 = true →
      (RaySphereIntersection r t ⟨rad, off⟩ c).2.rayDistance =
        Vec3.dot ((t.position + off) - r.position) r.direction -
        Real.sqrt (rad * rad -
          Vec3.length ((r.position + r.direction *
              Vec3.dot ((t.position + off) - r.position) r.direction) -
            (t.position + off)) *
          Vec3.length ((r.position + r.direction *
              Vec3.dot ((t.position + off) - r.position) r.direction) -
            (t.position + off))) ∧
      (RaySphereIntersection r t ⟨rad, off⟩ c).2.collidedAt =
        r.position + r.direction *
          (RaySphereIntersection r t ⟨rad, off⟩ c).2.rayDistance) := by
  simp only [RaySphereIntersection]
  split_ifs with h1 h2
  · exact ⟨by simp [h1], fun hf => by simp at hf⟩
  · exact ⟨by simp [h2], fun hf => by simp at hf⟩
  · refine ⟨by simp [h1, h2, le_of_not_lt, not_lt.mp], fun _ => ⟨rfl, rfl⟩⟩

/-- Witness for C6: the ray from (-5,0,0) toward +x against a unit sphere at
the origin hits at distance 4 with hit point (-1,0,0). -/
theorem claim_C6_witness :
    (RaySphereIntersection ⟨⟨-5, 0, 0⟩, ⟨1, 0, 0⟩⟩ (poseAt 0) ⟨1, 0⟩ ⟨0, 0⟩).1
      = true ∧
    (RaySphereIntersection ⟨⟨-5, 0, 0⟩, ⟨1, 0, 0⟩⟩ (poseAt 0) ⟨1, 0⟩ ⟨0, 0⟩).2.rayDistance
      = 4 ∧
    (RaySphereIntersection ⟨⟨-5, 0, 0⟩, ⟨1, 0, 0⟩⟩ (poseAt 0) ⟨1, 0⟩ ⟨0, 0⟩).2.collidedAt
      = ⟨-1, 0, 0⟩ := by
  have h := claim_C6_ray_sphere ⟨⟨-5, 0, 0⟩, ⟨1, 0, 0⟩⟩ 1 0 (poseAt 0) ⟨0, 0⟩
  simp [poseAt, Vec3.length_mk] at h
  norm_num [Real.sqrt_zero, Real.sqrt_one] at h
  obtain ⟨h1, h2⟩ := h
  obtain ⟨hd, hc⟩ := h2 h1
  simp only [poseAt, Vec3.zero_def]
  refine ⟨h1, hd, ?_⟩
  rw [hc, hd]
  norm_num

/-- The first component of the strict-improvement fold is the running
minimum of the first components. -/
theorem foldl_pick_fst (l : List (ℝ × Vec3)) (acc : ℝ × Vec3) :
    (l.foldl (fun acc dv => if dv.1 < acc.1 then dv else acc) acc).1 =
    (l.map Prod.fst).foldl min acc.1 := by
  induction l generalizing acc with
  | nil => rfl
  | cons d rest ih =>
    simp only [List.foldl_cons, List.map_cons]
    rw [ih]
    congr 1
    by_cases h : d.1 < acc.1
    · simp [if_pos h, min_eq_right (le_of_lt h)]
    · simp [if_neg h, min_eq_left (not_lt.mp h)]

/-- The strict-improvement fold returns either its initial accumulator or a
member of the list. -/
theorem foldl_pick_mem (l : List (ℝ × Vec3)) (acc : ℝ × Vec3) :
    l.foldl (fun acc dv => if dv.1 < acc.1 then dv else acc) acc = acc ∨
    l.foldl (fun acc dv => if dv.1 < acc.1 then dv else acc) acc ∈ l := by
  induction l generalizing acc with
  | nil => exact Or.inl rfl
  | cons d rest ih =>
    simp only [List.foldl_cons]
    by_cases h : d.1 < acc.1
    · rw [if_pos h]
      rcases ih d with h1 | h1
      · exact Or.inr (by rw [h1]; exact List.mem_cons_self d rest)
      · exact Or.inr (List.mem_cons_of_mem d h1)
    · rw [if_neg h]
      rcases ih acc with h1 | h1
      · exact Or.inl h1
      · exact Or.inr (List.mem_cons_of_mem d h1)

/-- Reassociation of a six-way running minimum started at a sentinel that is
larger than the true minimum. -/
theorem min_fold_six (m d0 d1 d2 d3 d4 d5 : ℝ)
    (h : min d0 (min d1 (min d2 (min d3 (min d4 d5)))) < m) :
    min (min (min (min (min (min m d0) d1) d2) d3) d4) d5 =
    min d0 (min d1 (min d2 (min d3 (min d4 d5)))) := by
  simp only [min_assoc]
  exact min_eq_right h.le

/-- A result of bestFace: its penetration component is the minimum of the
distances (seeded with FLT_MAX). -/
theorem bestFace_fst (pairs : List (ℝ × Vec3)) :
    (bestFace pairs).1 = (pairs.map Prod.fst).foldl min fltMax :=
  foldl_pick_fst pairs (fltMax, (0 : Vec3))

/-- A result of bestFace is the seed or one of the listed pairs. -/
theorem bestFace_mem (pairs : List (ℝ × Vec3)) :
    bestFace pairs = (fltMax, (0 : Vec3)) ∨ bestFace pairs ∈ pairs :=
  foldl_pick_mem pairs (fltMax, (0 : Vec3))

/-- Claim C4: the AABB-AABB test collides exactly when the center difference
is strictly inside the summed half-extents on all three axes; on overlap the
penetration is the minimum of the six face-separation distances, the normal
is the face normal paired with one of the distances attaining that minimum,
and both local anchors are left at the body origins. -/
theorem claim_C4_aabb_aabb (hdA oA hdB oB : Vec3) (tA tB : Transform)
    (ci : CollisionInfo) (maxA minA maxB minB : Vec3)
    (hmaxA : maxA = tA.position + oA + hdA)
    (hminA : minA = tA.position + oA - hdA)
    (hmaxB : maxB = tB.position + oB + hdB)
    (hminB : minB = tB.position + oB - hdB)
    (hfin : min (maxB.x - minA.x) (min (maxA.x - minB.x) (min (maxB.y - minA.y)
      (min (maxA.y - minB.y) (min (maxB.z - minA.z) (maxA.z - minB.z))))) < fltMax) :
    ((AABBIntersection ⟨hdA, oA⟩ tA ⟨hdB, oB⟩ tB ci).1 = true ↔
      (|((tB.position + oB) - (tA.position + oA)).x| < (hdA + hdB).x ∧
       |((tB.position + oB) - (tA.position + oA)).y| < (hdA + hdB).y ∧
       |((tB.position + oB) - (tA.position + oA)).z| < (hdA + hdB).z)) ∧
    ((AABBIntersection ⟨hdA, oA⟩ tA ⟨hdB, oB⟩ tB ci).1 = true →
      (AABBIntersection ⟨hdA, oA⟩ tA ⟨hdB, oB⟩ tB ci).2.point.penetration =
        min (maxB.x - minA.x) (min (maxA.x - minB.x) (min (maxB.y - minA.y)
          (min (maxA.y - minB.y) (min (maxB.z - minA.z) (maxA.z - minB.z))))) ∧
      (AABBIntersection ⟨hdA, oA⟩ tA ⟨hdB, oB⟩ tB ci).2.point.localA = 0 ∧
      (AABBIntersection ⟨hdA, oA⟩ tA ⟨hdB, oB⟩ tB ci).2.point.localB = 0 ∧
      ((AABBIntersection ⟨hdA, oA⟩ tA ⟨hdB, oB⟩ tB ci).2.point.penetration,
       (AABBIntersection ⟨hdA, oA⟩ tA ⟨hdB, oB⟩ tB ci).2.point.normal) ∈
        [(maxB.x - minA.x, (⟨-1, 0, 0⟩ : Vec3)),
         (maxA.x - minB.x, (⟨1, 0, 0⟩ : Vec3)),
         (maxB.y - minA.y, (⟨0, -1, 0⟩ : Vec3)),
         (maxA.y - minB.y, (⟨0, 1, 0⟩ : Vec3)),
         (maxB.z - minA.z, (⟨0, 0, -1⟩ : Vec3)),
         (maxA.z - minB.z, (⟨0, 0, 1⟩ : Vec3))]) := by
  subst hmaxA hminA hmaxB hminB
  simp only [AABBIntersection, AABBTest, CollisionInfo.AddContactPoint]
  split_ifs with hov
  · simp only [decide_eq_true_eq] at hov
    have hpen : (bestFace
        [((tB.position + oB + hdB).x - (tA.position + oA - hdA).x, (⟨-1, 0, 0⟩ : Vec3)),
         ((tA.position + oA + hdA).x - (tB.position + oB - hdB).x, (⟨1, 0, 0⟩ : Vec3)),
         ((tB.position + oB + hdB).y - (tA.position + oA - hdA).y, (⟨0, -1, 0⟩ : Vec3)),
         ((tA.position + oA + hdA).y - (tB.position + oB - hdB).y, (⟨0, 1, 0⟩ : Vec3)),
         ((tB.position + oB + hdB).z - (tA.position + oA - hdA).z, (⟨0, 0, -1⟩ : Vec3)),
         ((tA.position + oA + hdA).z - (tB.position + oB - hdB).z, (⟨0, 0, 1⟩ : Vec3))]).1
        = min ((tB.position + oB + hdB).x - (tA.position + oA - hdA).x)
          (min ((tA.position + oA + hdA).x - (tB.position + oB - hdB).x)
            (min ((tB.position + oB + hdB).y - (tA.position + oA - hdA).y)
              (min ((tA.position + oA + hdA).y - (tB.position + oB - hdB).y)
                (min ((tB.position + oB + hdB).z - (tA.position + oA - hdA).z)
                  ((tA.position + oA + hdA).z - (tB.position + oB - hdB).z))))) := by
      rw [bestFace_fst]
      simp only [List.map_cons, List.map_nil, List.foldl_cons, List.foldl_nil]
      exact min_fold_six _ _ _ _ _ _ _ hfin
    refine ⟨by simpa using hov, fun _ => ⟨hpen, rfl, rfl, ?_⟩⟩
    rcases bestFace_mem
        [((tB.position + oB + hdB).x - (tA.position + oA - hdA).x, (⟨-1, 0, 0⟩ : Vec3)),
         ((tA.position + oA + hdA).x - (tB.position + oB - hdB).x, (⟨1, 0, 0⟩ : Vec3)),
         ((tB.position + oB + hdB).y - (tA.position + oA - hdA).y, (⟨0, -1, 0⟩ : Vec3)),
         ((tA.position + oA + hdA).y - (tB.position + oB - hdB).y, (⟨0, 1, 0⟩ : Vec3)),
         ((tB.position + oB + hdB).z - (tA.position + oA - hdA).z, (⟨0, 0, -1⟩ : Vec3)),
         ((tA.position + oA + hdA).z - (tB.position + oB - hdB).z, (⟨0, 0, 1⟩ : Vec3))]
      with hacc | hin
    · exfalso
      have h1 := congrArg Prod.fst hacc
      rw [hpen] at h1
      rw [h1] at hfin
      exact lt_irrefl _ hfin
    · simpa using hin
  · simp only [decide_eq_true_eq] at hov
    refine ⟨?_, fun hf => by simp at hf⟩
    constructor
    · intro hf
      simp at hf
    · intro hc
      exact absurd (by simpa using hc) hov

/-- Witness for C4: a unit half-extent box at the origin and an identical box
offset by (0.5,0,0) collide with penetration 1.5 along the x-aligned face
normal, with both anchors at the body origins. -/
theorem claim_C4_witness :
    (AABBIntersection ⟨⟨1, 1, 1⟩, 0⟩ (poseAt 0) ⟨⟨1, 1, 1⟩, 0⟩
      (poseAt ⟨1 / 2, 0, 0⟩) ciInit).1 = true ∧
    (AABBIntersection ⟨⟨1, 1, 1⟩, 0⟩ (poseAt 0) ⟨⟨1, 1, 1⟩, 0⟩
      (poseAt ⟨1 / 2, 0, 0⟩) ciInit).2.point.penetration = 3 / 2 ∧
    (AABBIntersection ⟨⟨1, 1, 1⟩, 0⟩ (poseAt 0) ⟨⟨1, 1, 1⟩, 0⟩
      (poseAt ⟨1 / 2, 0, 0⟩) ciInit).2.point.normal = ⟨1, 0, 0⟩ ∧
    (AABBIntersection ⟨⟨1, 1, 1⟩, 0⟩ (poseAt 0) ⟨⟨1, 1, 1⟩, 0⟩
      (poseAt ⟨1 / 2, 0, 0⟩) ciInit).2.point.localA = 0 ∧
    (AABBIntersection ⟨⟨1, 1, 1⟩, 0⟩ (poseAt 0) ⟨⟨1, 1, 1⟩, 0⟩
      (poseAt ⟨1 / 2, 0, 0⟩) ciInit).2.point.localB = 0 := by
  have h := claim_C4_aabb_aabb ⟨1, 1, 1⟩ 0 ⟨1, 1, 1⟩ 0 (poseAt 0)
    (poseAt ⟨1 / 2, 0, 0⟩) ciInit ⟨1, 1, 1⟩ ⟨-1, -1, -1⟩ ⟨3 / 2, 1, 1⟩
    ⟨-1 / 2, -1, -1⟩
    (by simp [poseAt]) (by simp [poseAt])
    (by simp [poseAt]; try norm_num) (by simp [poseAt]; try norm_num)
    (by simp only [Vec3.x_mk, Vec3.y_mk, Vec3.z_mk, fltMax]; norm_num)
  have htrue : (AABBIntersection ⟨⟨1, 1, 1⟩, 0⟩ (poseAt 0) ⟨⟨1, 1, 1⟩, 0⟩
      (poseAt ⟨1 / 2, 0, 0⟩) ciInit).1 = true := by
    refine h.1.mpr ?_
    simp [poseAt, abs_lt]
    norm_num
  obtain ⟨hpen, hla, hlb, _⟩ := h.2 htrue
  refine ⟨htrue, ?_, ?_, hla, hlb⟩
  · rw [hpen]
    norm_num
  · simp [AABBIntersection, AABBTest, bestFace, CollisionInfo.AddContactPoint,
      poseAt, ciInit, mkInfo, abs_lt]
    norm_num [fltMax]

/-- Counterexample for C2: an AABB-sphere test with the sphere center inside
the box reports a collision whose normal is the zero vector (the residual
being normalised is zero), so the normal is not unit-length. -/
theorem claim_C2_counterexample :
    (AABBSphereIntersection ⟨⟨1, 1, 1⟩, 0⟩ (poseAt 0) ⟨1, 0⟩ (poseAt 0) ciInit
      false).1 = true ∧
    (AABBSphereIntersection ⟨⟨1, 1, 1⟩, 0⟩ (poseAt 0) ⟨1, 0⟩ (poseAt 0) ciInit
      false).2.point.normal = 0 ∧
    Vec3.length ((AABBSphereIntersection ⟨⟨1, 1, 1⟩, 0⟩ (poseAt 0) ⟨1, 0⟩
      (poseAt 0) ciInit false).2.point.normal) ≠ 1 := by
  simp [AABBSphereIntersection, Maths.ClampVec, Maths.Clamp, poseAt, ciInit, mkInfo,
    CollisionInfo.AddContactPoint, Vec3.normalised, Vec3.length_mk, Real.sqrt_zero]
  norm_num [Vec3.length_mk, Real.sqrt_zero]

/-- Claim C2 (amended): for the sphere-sphere and AABB-sphere tests a reported
collision has penetration at least 0, and the normal is unit-length whenever
the vector being normalised (center difference, resp. clamp residual) is
nonzero; a sphere centered inside the box instead produces the zero normal,
and the OBB test's normal is an unnormalised cross-product axis. -/
theorem claim_C2_amended :
    (∀ (rA rB : ℝ) (oA oB : Vec3) (tA tB : Transform) (ci : CollisionInfo),
      (SphereIntersection ⟨rA, oA⟩ tA ⟨rB, oB⟩ tB ci).1 = true →
      0 ≤ (SphereIntersection ⟨rA, oA⟩ tA ⟨rB, oB⟩ tB ci).2.point.penetration ∧
      ((tB.position + oB) - (tA.position + oA) ≠ 0 →
        Vec3.length ((SphereIntersection ⟨rA, oA⟩ tA ⟨rB, oB⟩ tB ci).2.point.normal)
          = 1)) ∧
    (∀ (hd off : Vec3) (rB : ℝ) (oB : Vec3) (tA tB : Transform)
      (ci : CollisionInfo) (useBox : Bool),
      (AABBSphereIntersection ⟨hd, off⟩ tA ⟨rB, oB⟩ tB ci useBox).1 = true →
      0 ≤ (AABBSphereIntersection ⟨hd, off⟩ tA ⟨rB, oB⟩ tB ci useBox).2.point.penetration ∧
      (((tB.position + oB) - (tA.position + off)) -
          Maths.ClampVec ((tB.position + oB) - (tA.position + off)) (-hd) hd ≠ 0 →
        Vec3.length ((AABBSphereIntersection ⟨hd, off⟩ tA ⟨rB, oB⟩ tB ci
          useBox).2.point.normal) = 1)) := by
  constructor
  · intro rA rB oA oB tA tB ci
    simp only [SphereIntersection, CollisionInfo.AddContactPoint]
    split_ifs with h
    · intro _
      exact ⟨by simp; linarith, fun hnz => Vec3.length_normalised _ hnz⟩
    · intro hf
      simp at hf
  · intro hd off rB oB tA tB ci useBox
    simp only [AABBSphereIntersection, CollisionInfo.AddContactPoint]
    split_ifs with h hub
    · intro _
      exact ⟨by simp; linarith, fun hnz => Vec3.length_normalised _ hnz⟩
    · intro _
      exact ⟨by simp; linarith, fun hnz => Vec3.length_normalised _ hnz⟩
    · intro hf
      simp at hf

/-- Witness for C2: a separated sphere pair and a sphere outside a box both
collide with nonnegative penetration and a unit normal. -/
theorem claim_C2_witness :
    (0 ≤ (SphereIntersection ⟨1, 0⟩ (poseAt 0) ⟨1, 0⟩ (poseAt ⟨1, 0, 0⟩)
        ciInit).2.point.penetration ∧
      Vec3.length ((SphereIntersection ⟨1, 0⟩ (poseAt 0) ⟨1, 0⟩ (poseAt ⟨1, 0, 0⟩)
        ciInit).2.point.normal) = 1) ∧
    (0 ≤ (AABBSphereIntersection ⟨⟨1, 1, 1⟩, 0⟩ (poseAt 0) ⟨3 / 2, 0⟩
        (poseAt ⟨2, 0, 0⟩) ciInit false).2.point.penetration ∧
      Vec3.length ((AABBSphereIntersection ⟨⟨1, 1, 1⟩, 0⟩ (poseAt 0) ⟨3 / 2, 0⟩
        (poseAt ⟨2, 0, 0⟩) ciInit false).2.point.normal) = 1) := by
  have h := claim_C2_amended
  constructor
  · have h1 := h.1 1 1 0 0 (poseAt 0) (poseAt ⟨1, 0, 0⟩) ciInit
    have ht : (SphereIntersection ⟨1, 0⟩ (poseAt 0) ⟨1, 0⟩ (poseAt ⟨1, 0, 0⟩)
        ciInit).1 = true := by
      simp [SphereIntersection, poseAt, Vec3.length_mk]
      try norm_num [Real.sqrt_one]
    have h2 := h1 ht
    refine ⟨h2.1, h2.2 ?_⟩
    simp [poseAt]
  · have h1 := h.2 ⟨1, 1, 1⟩ 0 (3 / 2) 0 (poseAt 0) (poseAt ⟨2, 0, 0⟩) ciInit false
    have ht : (AABBSphereIntersection ⟨⟨1, 1, 1⟩, 0⟩ (poseAt 0) ⟨3 / 2, 0⟩
        (poseAt ⟨2, 0, 0⟩) ciInit false).1 = true := by
      simp [AABBSphereIntersection, poseAt, Maths.ClampVec, Maths.Clamp,
        Vec3.length_mk]
      try norm_num [Real.sqrt_one]
    have h2 := h1 ht
    refine ⟨h2.1, h2.2 ?_⟩
    simp [poseAt, Maths.ClampVec, Maths.Clamp]
    norm_num

/-- An incoming manifold with recognisable stale contact data. -/
def ciStale : CollisionInfo :=
  ⟨⟨0, none, Transform.init⟩, ⟨0, none, Transform.init⟩,
   ⟨⟨1, 2, 3⟩, ⟨4, 5, 6⟩, ⟨7, 8, 9⟩, 11⟩⟩

/-- Claim C5: a configuration (one box strictly containing the other along
every axis) for which the OBB-OBB test returns true while no axis iteration
ever wrote the manifold: every valid axis takes the both-tie-breaks-negative
branch, so the reported penetration is the untouched FLT_MAX accumulator and
the normal and anchors carry the stale incoming data (the anchors merely
shifted by the body origins). -/
theorem claim_C5_stale_manifold :
    (OBBIntersection ⟨⟨1, 1, 1⟩, ⟨0, 0, 0⟩⟩ ⟨⟨0, 0, 0⟩, Quat.ident, ⟨2, 2, 2⟩⟩
      ⟨⟨1, 1, 1⟩, ⟨0, 0, 0⟩⟩ ⟨⟨0, 0, 0⟩, Quat.ident, ⟨6, 6, 6⟩⟩ ciStale).1 = true ∧
    (OBBIntersection ⟨⟨1, 1, 1⟩, ⟨0, 0, 0⟩⟩ ⟨⟨0, 0, 0⟩, Quat.ident, ⟨2, 2, 2⟩⟩
      ⟨⟨1, 1, 1⟩, ⟨0, 0, 0⟩⟩ ⟨⟨0, 0, 0⟩, Quat.ident, ⟨6, 6, 6⟩⟩
      ciStale).2.point.penetration = fltMax ∧
    (OBBIntersection ⟨⟨1, 1, 1⟩, ⟨0, 0, 0⟩⟩ ⟨⟨0, 0, 0⟩, Quat.ident, ⟨2, 2, 2⟩⟩
      ⟨⟨1, 1, 1⟩, ⟨0, 0, 0⟩⟩ ⟨⟨0, 0, 0⟩, Quat.ident, ⟨6, 6, 6⟩⟩
      ciStale).2.point.normal = ⟨7, 8, 9⟩ ∧
    (OBBIntersection ⟨⟨1, 1, 1⟩, ⟨0, 0, 0⟩⟩ ⟨⟨0, 0, 0⟩, Quat.ident, ⟨2, 2, 2⟩⟩
      ⟨⟨1, 1, 1⟩, ⟨0, 0, 0⟩⟩ ⟨⟨0, 0, 0⟩, Quat.ident, ⟨6, 6, 6⟩⟩
      ciStale).2.point.localA = ⟨1, 2, 3⟩ ∧
    (OBBIntersection ⟨⟨1, 1, 1⟩, ⟨0, 0, 0⟩⟩ ⟨⟨0, 0, 0⟩, Quat.ident, ⟨2, 2, 2⟩⟩
      ⟨⟨1, 1, 1⟩, ⟨0, 0, 0⟩⟩ ⟨⟨0, 0, 0⟩, Quat.ident, ⟨6, 6, 6⟩⟩
      ciStale).2.point.localB = ⟨4, 5, 6⟩ := by
  norm_num [OBBIntersection, obbDirections, obbLoop, obbAxisStep, OBBSupport,
    Transform.matrixMul, Quat.conj, Quat.ident, Quat.rot, ciStale, fltMax]

theorem lor_self_bits : (1 ||| 1 : ℕ) = 1 ∧ (2 ||| 2 : ℕ) = 2 ∧
    (4 ||| 4 : ℕ) = 4 ∧ (16 ||| 16 : ℕ) = 16 := by decide

@[simp] theorem Vec3.neg_neg_v (v : Vec3) : -(-v) = v := by
  ext <;> simp [Vec3.neg_def]

/-- The first body of the order-asymmetry counterexample: a cube of scale 2
at the origin. -/
def goA : GameObject :=
  ⟨1, some (CollisionVolume.obb ⟨⟨1, 1, 1⟩, ⟨0, 0, 0⟩⟩),
   ⟨⟨0, 0, 0⟩, Quat.ident, ⟨2, 2, 2⟩⟩⟩

/-- The second body: a cube of scale 4 centered at (1,0,0), sharing its
min-x face plane with the first cube's min-x face. -/
def goB : GameObject :=
  ⟨2, some (CollisionVolume.obb ⟨⟨1, 1, 1⟩, ⟨0, 0, 0⟩⟩),
   ⟨⟨1, 0, 0⟩, Quat.ident, ⟨4, 4, 4⟩⟩⟩

/-- Counterexample for C1: two OBB bodies for which the reported outcome
depends on the argument order — (A,B) hits the tie-break path where left = 0
and right < 0 on the first axis and returns no collision, while (B,A)
records a penetration on that axis and returns a collision. -/
theorem claim_C1_counterexample :
    (ObjectIntersection goA goB ciInit).1 = false ∧
    (ObjectIntersection goB goA ciInit).1 = true := by
  constructor <;>
    norm_num [ObjectIntersection, goA, goB, ciInit, mkInfo,
      CollisionVolume.typeBits, CollisionVolume.asOBB, OBBIntersection,
      obbDirections, obbLoop, obbAxisStep, OBBSupport, Transform.matrixMul,
      Quat.conj, Quat.ident, Quat.rot, fltMax, lor_self_bits.2.1,
      Vec3.length_mk, sqrt_four, sqrt_sixteen, Real.sqrt_one]

/-- Symmetry of the sphere-sphere routine: swapping the two spheres preserves
the outcome and the penetration and negates the normal. -/
theorem sphere_swap_symm (rA rB : ℝ) (oA oB : Vec3) (tA tB : Transform)
    (ci ci2 : CollisionInfo) :
    (SphereIntersection ⟨rA, oA⟩ tA ⟨rB, oB⟩ tB ci).1 =
      (SphereIntersection ⟨rB, oB⟩ tB ⟨rA, oA⟩ tA ci2).1 ∧
    ((SphereIntersection ⟨rA, oA⟩ tA ⟨rB, oB⟩ tB ci).1 = true →
      (SphereIntersection ⟨rA, oA⟩ tA ⟨rB, oB⟩ tB ci).2.point.penetration =
        (SphereIntersection ⟨rB, oB⟩ tB ⟨rA, oA⟩ tA ci2).2.point.penetration ∧
      (SphereIntersection ⟨rA, oA⟩ tA ⟨rB, oB⟩ tB ci).2.point.normal =
        -(SphereIntersection ⟨rB, oB⟩ tB ⟨rA, oA⟩ tA ci2).2.point.normal) := by
  have hdelta : (tA.position + oA) - (tB.position + oB) =
      -((tB.position + oB) - (tA.position + oA)) := by
    ext <;> simp [Vec3.sub_def, Vec3.add_def, Vec3.neg_def]
  simp only [SphereIntersection, CollisionInfo.AddContactPoint, hdelta,
    Vec3.length_neg, Vec3.normalised_neg]
  split_ifs with h1 h2
  · refine ⟨rfl, fun _ => ⟨by ring, by simp⟩⟩
  · exact absurd (by linarith) h2
  · exact absurd (by linarith) h1
  · exact ⟨rfl, fun hf => by simp at hf⟩

/-- Claim C1 (amended): for sphere-sphere pairs, ObjectIntersection reports
the same outcome in both argument orders, with equal penetration and negated
normals; for general volume pairs the symmetry fails — an OBB-OBB tie-break
configuration returns different collided outcomes for the two orders. -/
theorem claim_C1_amended (rA rB : ℝ) (oA oB : Vec3) (tA tB : Transform)
    (idA idB : ℤ) (ci ci2 : CollisionInfo) :
    (ObjectIntersection ⟨idA, some (CollisionVolume.sphere ⟨rA, oA⟩), tA⟩
        ⟨idB, some (CollisionVolume.sphere ⟨rB, oB⟩), tB⟩ ci).1 =
      (ObjectIntersection ⟨idB, some (CollisionVolume.sphere ⟨rB, oB⟩), tB⟩
        ⟨idA, some (CollisionVolume.sphere ⟨rA, oA⟩), tA⟩ ci2).1 ∧
    ((ObjectIntersection ⟨idA, some (CollisionVolume.sphere ⟨rA, oA⟩), tA⟩
        ⟨idB, some (CollisionVolume.sphere ⟨rB, oB⟩), tB⟩ ci).1 = true →
      (ObjectIntersection ⟨idA, some (CollisionVolume.sphere ⟨rA, oA⟩), tA⟩
        ⟨idB, some (CollisionVolume.sphere ⟨rB, oB⟩), tB⟩ ci).2.point.penetration =
      (ObjectIntersection ⟨idB, some (CollisionVolume.sphere ⟨rB, oB⟩), tB⟩
        ⟨idA, some (CollisionVolume.sphere ⟨rA, oA⟩), tA⟩ ci2).2.point.penetration ∧
      (ObjectIntersection ⟨idA, some (CollisionVolume.sphere ⟨rA, oA⟩), tA⟩
        ⟨idB, some (CollisionVolume.sphere ⟨rB, oB⟩), tB⟩ ci).2.point.normal =
      -(ObjectIntersection ⟨idB, some (CollisionVolume.sphere ⟨rB, oB⟩), tB⟩
        ⟨idA, some (CollisionVolume.sphere ⟨rA, oA⟩), tA⟩ ci2).2.point.normal) := by
  have hred : ∀ (id1 id2 : ℤ) (r1 r2 : ℝ) (o1 o2 : Vec3) (t1 t2 : Transform)
      (c : CollisionInfo),
      ObjectIntersection ⟨id1, some (CollisionVolume.sphere ⟨r1, o1⟩), t1⟩
        ⟨id2, some (CollisionVolume.sphere ⟨r2, o2⟩), t2⟩ c =
      SphereIntersection ⟨r1, o1⟩ t1 ⟨r2, o2⟩ t2
        { c with a := ⟨id1, some (CollisionVolume.sphere ⟨r1, o1⟩), t1⟩,
                 b := ⟨id2, some (CollisionVolume.sphere ⟨r2, o2⟩), t2⟩ } := by
    intro id1 id2 r1 r2 o1 o2 t1 t2 c
    simp [ObjectIntersection, CollisionVolume.typeBits, CollisionVolume.asSphere,
      lor_self_bits.2.2.1]
  rw [hred, hred]
  exact sphere_swap_symm rA rB oA oB tA tB _ _

/-- Witness for the amended C1: two colliding unit spheres give the same
outcome in both orders with equal penetration and negated normals. -/
theorem claim_C1_witness :
    (ObjectIntersection ⟨1, some (CollisionVolume.sphere ⟨1, ⟨0, 0, 0⟩⟩),
        poseAt ⟨0, 0, 0⟩⟩ ⟨2, some (CollisionVolume.sphere ⟨1, ⟨0, 0, 0⟩⟩),
        poseAt ⟨1, 0, 0⟩⟩ ciInit).1 = true ∧
    (ObjectIntersection ⟨1, some (CollisionVolume.sphere ⟨1, ⟨0, 0, 0⟩⟩),
        poseAt ⟨0, 0, 0⟩⟩ ⟨2, some (CollisionVolume.sphere ⟨1, ⟨0, 0, 0⟩⟩),
        poseAt ⟨1, 0, 0⟩⟩ ciInit).2.point.penetration =
      (ObjectIntersection ⟨2, some (CollisionVolume.sphere ⟨1, ⟨0, 0, 0⟩⟩),
        poseAt ⟨1, 0, 0⟩⟩ ⟨1, some (CollisionVolume.sphere ⟨1, ⟨0, 0, 0⟩⟩),
        poseAt ⟨0, 0, 0⟩⟩ ciInit).2.point.penetration ∧
    (ObjectIntersection ⟨1, some (CollisionVolume.sphere ⟨1, ⟨0, 0, 0⟩⟩),
        poseAt ⟨0, 0, 0⟩⟩ ⟨2, some (CollisionVolume.sphere ⟨1, ⟨0, 0, 0⟩⟩),
        poseAt ⟨1, 0, 0⟩⟩ ciInit).2.point.normal =
      -(ObjectIntersection ⟨2, some (CollisionVolume.sphere ⟨1, ⟨0, 0, 0⟩⟩),
        poseAt ⟨1, 0, 0⟩⟩ ⟨1, some (CollisionVolume.sphere ⟨1, ⟨0, 0, 0⟩⟩),
        poseAt ⟨0, 0, 0⟩⟩ ciInit).2.point.normal := by
  have h := claim_C1_amended 1 1 ⟨0, 0, 0⟩ ⟨0, 0, 0⟩ (poseAt ⟨0, 0, 0⟩)
    (poseAt ⟨1, 0, 0⟩) 1 2 ciInit ciInit
  have ht : (ObjectIntersection ⟨1, some (CollisionVolume.sphere ⟨1, ⟨0, 0, 0⟩⟩),
      poseAt ⟨0, 0, 0⟩⟩ ⟨2, some (CollisionVolume.sphere ⟨1, ⟨0, 0, 0⟩⟩),
      poseAt ⟨1, 0, 0⟩⟩ ciInit).1 = true := by
    norm_num [ObjectIntersection, SphereIntersection, CollisionVolume.typeBits,
      CollisionVolume.asSphere, lor_self_bits.2.2.1, poseAt, Vec3.length_mk,
      Real.sqrt_one]
  obtain ⟨hp, hn⟩ := h.2 ht
  exact ⟨ht, hp, hn⟩

theorem lor_1_2 : (1 ||| 2 : ℕ) = 3 := by decide

theorem lor_2_1 : (2 ||| 1 : ℕ) = 3 := by decide

theorem lor_1_4 : (1 ||| 4 : ℕ) = 5 := by decide

theorem lor_4_1 : (4 ||| 1 : ℕ) = 5 := by decide

theorem lor_1_16 : (1 ||| 16 : ℕ) = 17 := by decide

theorem lor_16_1 : (16 ||| 1 : ℕ) = 17 := by decide

theorem lor_2_4 : (2 ||| 4 : ℕ) = 6 := by decide

theorem lor_4_2 : (4 ||| 2 : ℕ) = 6 := by decide

theorem lor_2_16 : (2 ||| 16 : ℕ) = 18 := by decide

theorem lor_16_2 : (16 ||| 2 : ℕ) = 18 := by decide

theorem lor_4_16 : (4 ||| 16 : ℕ) = 20 := by decide

theorem lor_16_4 : (16 ||| 4 : ℕ) = 20 := by decide

theorem lor_1_1 : (1 ||| 1 : ℕ) = 1 := by decide

theorem lor_2_2 : (2 ||| 2 : ℕ) = 2 := by decide

theorem lor_4_4 : (4 ||| 4 : ℕ) = 4 := by decide

theorem lor_16_16 : (16 ||| 16 : ℕ) = 16 := by decide

/-- Claim C9: for a mixed AABB/OBB pair in either argument order the
dispatcher hands both volumes to the OBB-OBB routine in caller order with
no body-reference swap; the routine itself is independent of the volumes'
half-dimensions (its supports come from OBBSupport, the transform matrix
applied to a corner of half-size 0.5 per axis). -/
theorem claim_C9_aabb_obb_delegation (hdA hdB oA oB : Vec3) (tA tB : Transform)
    (idA idB : ℤ) (ci : CollisionInfo) :
    (ObjectIntersection ⟨idA, some (CollisionVolume.aabb ⟨hdA, oA⟩), tA⟩
        ⟨idB, some (CollisionVolume.obb ⟨hdB, oB⟩), tB⟩ ci =
      OBBIntersection ⟨hdA, oA⟩ tA ⟨hdB, oB⟩ tB
        { ci with a := ⟨idA, some (CollisionVolume.aabb ⟨hdA, oA⟩), tA⟩,
                  b := ⟨idB, some (CollisionVolume.obb ⟨hdB, oB⟩), tB⟩ }) ∧
    (ObjectIntersection ⟨idA, some (CollisionVolume.obb ⟨hdA, oA⟩), tA⟩
        ⟨idB, some (CollisionVolume.aabb ⟨hdB, oB⟩), tB⟩ ci =
      OBBIntersection ⟨hdA, oA⟩ tA ⟨hdB, oB⟩ tB
        { ci with a := ⟨idA, some (CollisionVolume.obb ⟨hdA, oA⟩), tA⟩,
                  b := ⟨idB, some (CollisionVolume.aabb ⟨hdB, oB⟩), tB⟩ }) ∧
    (∀ (h1 h2 : Vec3),
      OBBIntersection ⟨h1, oA⟩ tA ⟨h2, oB⟩ tB ci =
        OBBIntersection ⟨hdA, oA⟩ tA ⟨hdB, oB⟩ tB ci) ∧
    (∀ (t : Transform) (d : Vec3),
      OBBSupport t d = t.matrixMul
        ⟨if (Quat.rot t.orientation.conj d).x < 0 then -(0.5 : ℝ) else 0.5,
         if (Quat.rot t.orientation.conj d).y < 0 then -(0.5 : ℝ) else 0.5,
         if (Quat.rot t.orientation.conj d).z < 0 then -(0.5 : ℝ) else 0.5⟩) := by
  refine ⟨?_, ?_, fun h1 h2 => rfl, fun t d => rfl⟩
  · simp [ObjectIntersection, CollisionVolume.typeBits, CollisionVolume.asOBB,
      lor_1_2]
  · simp [ObjectIntersection, CollisionVolume.typeBits, CollisionVolume.asOBB,
      lor_2_1]

/-- The AABB-AABB routine only writes the contact point, not the body refs. -/
theorem aabb_pres (vA : AABBVolume) (tA : Transform) (vB : AABBVolume)
    (tB : Transform) (ci : CollisionInfo) :
    (AABBIntersection vA tA vB tB ci).2.a = ci.a ∧
    (AABBIntersection vA tA vB tB ci).2.b = ci.b := by
  simp only [AABBIntersection, CollisionInfo.AddContactPoint]
  split_ifs <;> exact ⟨rfl, rfl⟩

/-- The sphere-sphere routine only writes the contact point. -/
theorem sphere_pres (vA : SphereVolume) (tA : Transform) (vB : SphereVolume)
    (tB : Transform) (ci : CollisionInfo) :
    (SphereIntersection vA tA vB tB ci).2.a = ci.a ∧
    (SphereIntersection vA tA vB tB ci).2.b = ci.b := by
  simp only [SphereIntersection, CollisionInfo.AddContactPoint]
  split_ifs <;> exact ⟨rfl, rfl⟩

/-- The AABB-sphere routine only writes the contact point. -/
theorem aabbSphere_pres (vA : AABBVolume) (tA : Transform) (vB : SphereVolume)
    (tB : Transform) (ci : CollisionInfo) (useBox : Bool) :
    (AABBSphereIntersection vA tA vB tB ci useBox).2.a = ci.a ∧
    (AABBSphereIntersection vA tA vB tB ci useBox).2.b = ci.b := by
  simp only [AABBSphereIntersection, CollisionInfo.AddContactPoint]
  split_ifs <;> exact ⟨rfl, rfl⟩

/-- The OBB-OBB routine only writes the contact point. -/
theorem obb_pres (vA : OBBVolume) (tA : Transform) (vB : OBBVolume)
    (tB : Transform) (ci : CollisionInfo) :
    (OBBIntersection vA tA vB tB ci).2.a = ci.a ∧
    (OBBIntersection vA tA vB tB ci).2.b = ci.b := by
  simp only [OBBIntersection]
  rcases hres : obbLoop tA tB 0 (obbDirections tA tB) ⟨fltMax, -1, ci.point⟩
    with ⟨b, s⟩
  cases b <;> simp [hres]

/-- The capsule-capsule routine only writes the contact point. -/
theorem capsule_pres (vA : CapsuleVolume) (tA : Transform) (vB : CapsuleVolume)
    (tB : Transform) (ci : CollisionInfo) :
    (CapsuleIntersection vA tA vB tB ci).2.a = ci.a ∧
    (CapsuleIntersection vA tA vB tB ci).2.b = ci.b := by
  simp only [CapsuleIntersection]
  exact ⟨(sphere_pres _ _ _ _ _).1, (sphere_pres _ _ _ _ _).2⟩

/-- The sphere-OBB routine only writes the contact point. -/
theorem sphereObb_pres (vA : SphereVolume) (tA : Transform) (vB : OBBVolume)
    (tB : Transform) (ci : CollisionInfo) :
    (SphereOBBIntersection vA tA vB tB ci).2.a = ci.a ∧
    (SphereOBBIntersection vA tA vB tB ci).2.b = ci.b := by
  simp only [SphereOBBIntersection]
  exact ⟨(aabbSphere_pres _ _ _ _ _ _).1, (aabbSphere_pres _ _ _ _ _ _).2⟩

/-- The capsule-OBB routine only writes the contact point. -/
theorem capsuleObb_pres (vA : CapsuleVolume) (tA : Transform) (vB : OBBVolume)
    (tB : Transform) (ci : CollisionInfo) :
    (CapsuleOBBIntersection vA tA vB tB ci).2.a = ci.a ∧
    (CapsuleOBBIntersection vA tA vB tB ci).2.b = ci.b := by
  simp only [CapsuleOBBIntersection]
  exact ⟨(sphereObb_pres _ _ _ _ _).1, (sphereObb_pres _ _ _ _ _).2⟩

/-- The sphere-capsule routine only writes the contact point. -/
theorem sphereCapsule_pres (vA : CapsuleVolume) (tA : Transform)
    (vB : SphereVolume) (tB : Transform) (ci : CollisionInfo) :
    (SphereCapsuleIntersection vA tA vB tB ci).2.a = ci.a ∧
    (SphereCapsuleIntersection vA tA vB tB ci).2.b = ci.b := by
  simp only [SphereCapsuleIntersection]
  exact ⟨(sphere_pres _ _ _ _ _).1, (sphere_pres _ _ _ _ _).2⟩

/-- The AABB-capsule routine only writes the contact point. -/
theorem aabbCapsule_pres (vA : CapsuleVolume) (tA : Transform)
    (vB : AABBVolume) (tB : Transform) (ci : CollisionInfo) :
    (AABBCapsuleIntersection vA tA vB tB ci).2.a = ci.a ∧
    (AABBCapsuleIntersection vA tA vB tB ci).2.b = ci.b := by
  simp only [AABBCapsuleIntersection]
  exact ⟨(aabbSphere_pres _ _ _ _ _ _).1, (aabbSphere_pres _ _ _ _ _ _).2⟩

/-- Claim C10: ObjectIntersection is not atomic on failure — whenever both
objects carry bounding volumes the output manifold's body references are
written (caller order, or swapped for non-canonical kind orders) regardless
of the boolean result, and a concrete non-colliding capsule pair still comes
back with its capsule-side local anchor shifted by the reduction offset. -/
theorem claim_C10_nonatomic :
    (∀ (vA vB : CollisionVolume) (idA idB : ℤ) (tA tB : Transform)
      (ci : CollisionInfo),
      ((ObjectIntersection ⟨idA, some vA, tA⟩ ⟨idB, some vB, tB⟩ ci).2.a =
          ⟨idA, some vA, tA⟩ ∧
        (ObjectIntersection ⟨idA, some vA, tA⟩ ⟨idB, some vB, tB⟩ ci).2.b =
          ⟨idB, some vB, tB⟩) ∨
      ((ObjectIntersection ⟨idA, some vA, tA⟩ ⟨idB, some vB, tB⟩ ci).2.a =
          ⟨idB, some vB, tB⟩ ∧
        (ObjectIntersection ⟨idA, some vA, tA⟩ ⟨idB, some vB, tB⟩ ci).2.b =
          ⟨idA, some vA, tA⟩)) ∧
    ((ObjectIntersection ⟨1, some (CollisionVolume.capsule ⟨2, 1 / 2, ⟨0, 0, 0⟩⟩),
        poseAt ⟨0, 0, 0⟩⟩ ⟨2, some (CollisionVolume.capsule ⟨2, 1 / 2, ⟨0, 0, 0⟩⟩),
        poseAt ⟨10, 0, 0⟩⟩ ciInit).1 = false ∧
      (ObjectIntersection ⟨1, some (CollisionVolume.capsule ⟨2, 1 / 2, ⟨0, 0, 0⟩⟩),
        poseAt ⟨0, 0, 0⟩⟩ ⟨2, some (CollisionVolume.capsule ⟨2, 1 / 2, ⟨0, 0, 0⟩⟩),
        poseAt ⟨10, 0, 0⟩⟩ ciInit).2.point.localA ≠ ciInit.point.localA) := by
  constructor
  · intro vA vB idA idB tA tB ci
    cases vA <;> cases vB <;>
      simp [ObjectIntersection, CollisionVolume.typeBits, lor_1_1, lor_2_2,
        lor_4_4, lor_16_16, lor_1_2, lor_2_1, lor_1_4, lor_4_1, lor_1_16,
        lor_16_1, lor_2_4, lor_4_2, lor_2_16, lor_16_2, lor_4_16, lor_16_4,
        aabb_pres, sphere_pres, aabbSphere_pres, obb_pres, capsule_pres,
        sphereObb_pres, capsuleObb_pres, sphereCapsule_pres, aabbCapsule_pres]
  · constructor <;>
      · simp [ObjectIntersection, CollisionVolume.typeBits,
          CollisionVolume.asCapsule, lor_16_16, CapsuleIntersection,
          SphereIntersection, ClosestPointOnLineSegment, Maths.Clamp,
          Transform.init, Transform.SetPosition, Transform.SetScale, poseAt,
          Quat.ident, Quat.conj, Quat.rot,
          ciInit, mkInfo, CollisionInfo.AddContactPoint]
        norm_num [Vec3.length_mk, sqrt_hundred, Maths.Clamp,
          CollisionInfo.AddContactPoint, SphereIntersection]
